import Mathlib

/-!
Verification of the FAB auth-manager user CLI commands
(providers/fab/src/airflow/providers/fab/auth_manager/cli_commands/user_command.py).

The identity store (Flask-AppBuilder security manager) is an external
collaborator; it is modelled by the capability set the commands call:
find_role, find_user, add_user, update_user, del_register_user, reset_password.
Users and roles live in an explicit `Store` value; every command is a pure
function from a store (plus its CLI arguments) to a result together with the
store after the command ran, so that partial mutation on error paths is
observable.
-/

namespace UserCommand

/-- A raw record of the import file, one JSON object of the input array.
A field is `none` when the key is absent from the object.  Mirrors the
fields of `UserSchema`: `id` optional int, `firstname`, `lastname`,
`username`, `email` strings, `roles` a list of role-name strings. -/
structure RawRecord where
  id : Option Int
  firstname : Option String
  lastname : Option String
  username : Option String
  email : Option String
  roles : Option (List String)
deriving DecidableEq, Repr

/-- Splits a character list at every occurrence of the separator `c`
(the pieces do not contain `c`; n separators give n+1 pieces). -/
def splitOnChar (c : Char) : List Char → List (List Char)
  | [] => [[]]
  | x :: xs =>
    if x = c then [] :: splitOnChar c xs
    else
      match splitOnChar c xs with
      | [] => [[x]]
      | y :: ys => (x :: y) :: ys

/-- Models the external marshmallow `fields.Email` syntactic check: one at-sign
separating a non-empty local part from a non-empty domain that contains a dot
with non-empty labels. -/
def validEmail (s : String) : Bool :=
  match splitOnChar '@' s.toList with
  | [lp, dom] =>
    !lp.isEmpty && !dom.isEmpty &&
      decide ((splitOnChar '.' dom).length ≥ 2) &&
      (splitOnChar '.' dom).all (fun l => !l.isEmpty)
  | _ => false

/-- Validation of one record against `UserSchema`: `firstname`, `lastname`,
`username`, `email`, `roles` are `required=True` (the key must be present);
`email` must additionally pass the email-syntax check and `roles` must have
length at least 1 (`validate.Length(min=1)`).  A plain `fields.Str` puts no
constraint on the string value itself (the empty string is accepted).
Returns the list of (field, message) violations, empty when the record is
valid. -/
def validateRecord (r : RawRecord) : List (String × String) :=
  (match r.firstname with
   | none => [("firstname", "Missing data for required field.")]
   | some _ => []) ++
  (match r.lastname with
   | none => [("lastname", "Missing data for required field.")]
   | some _ => []) ++
  (match r.username with
   | none => [("username", "Missing data for required field.")]
   | some _ => []) ++
  (match r.email with
   | none => [("email", "Missing data for required field.")]
   | some e => if validEmail e then [] else [("email", "Not a valid email address.")]) ++
  (match r.roles with
   | none => [("roles", "Missing data for required field.")]
   | some rs => if rs.length ≥ 1 then [] else [("roles", "Shorter than minimum length 1.")])

/-- Validation of a batch starting at row index `i`: the aggregated report of
`UserSchema(many=True).load`, keyed by record index, each entry carrying the
per-field violations of that record.  Valid records contribute no entry. -/
def validateBatchFrom (i : Nat) : List RawRecord → List (Nat × List (String × String))
  | [] => []
  | r :: rest =>
    if validateRecord r = [] then validateBatchFrom (i + 1) rest
    else (i, validateRecord r) :: validateBatchFrom (i + 1) rest

/-- The aggregated validation report of a whole batch (rows numbered from 0),
as produced by `e.normalized_messages()` in `_import_users`. -/
def validateBatch (recs : List RawRecord) : List (Nat × List (String × String)) :=
  validateBatchFrom 0 recs

/-- A user of the identity store. -/
structure User where
  id : Nat
  username : String
  first_name : String
  last_name : String
  email : String
  roles : List String
deriving DecidableEq, Repr

/-- The identity store: its users, its existing role names, and the id the
store will assign to the next created user. -/
structure Store where
  users : List User
  roles : List String
  nextId : Nat
deriving DecidableEq, Repr

/-- Models `appbuilder.sm.find_role(name)`: a role reference exists exactly
when the name is one of the store roles (a role is identified by its name). -/
def Store.find_role (s : Store) (name : String) : Option String :=
  if name ∈ s.roles then some name else none

/-- Models `appbuilder.sm.find_user(email=...)`. -/
def Store.find_user_by_email (s : Store) (email : String) : Option User :=
  s.users.find? (fun u => u.email = email)

/-- Models `appbuilder.sm.find_user(username)` / `find_user(username=...)`. -/
def Store.find_user_by_username (s : Store) (username : String) : Option User :=
  s.users.find? (fun u => u.username = username)

/-- Models `appbuilder.sm.find_user(username=..., email=...)` as called by
`_find_user`: the username key is tried first, otherwise the email key. -/
def Store.find_user (s : Store) (username email : Option String) : Option User :=
  match username with
  | some un => s.find_user_by_username un
  | none =>
    match email with
    | some em => s.find_user_by_email em
    | none => none

/-- Models `appbuilder.sm.add_user(...)`: appends one new user with the
store-assigned id. -/
def Store.add_user (s : Store) (username first_name last_name email : String)
    (roles : List String) : Store :=
  { s with
    users := s.users ++ [⟨s.nextId, username, first_name, last_name, email, roles⟩],
    nextId := s.nextId + 1 }

/-- Models `appbuilder.sm.update_user(u)`: replaces the stored user with the
same id. -/
def Store.update_user (s : Store) (u : User) : Store :=
  { s with users := s.users.map (fun x => if x.id = u.id then u else x) }

/-- Modelled from the spec: the success effect of the external deletion
request `appbuilder.sm.del_register_user(u)` (Flask-AppBuilder code, not part
of these sources) — the user with that id is removed; a failing request
(`delOk = false` at the call sites) leaves the store as it is, so mutations
already applied before the request are kept. -/
def Store.del_user (s : Store) (u : User) : Store :=
  { s with users := s.users.filter (fun x => x.id ≠ u.id) }

/-- The distinct failure modes the commands raise `SystemExit` with. -/
inductive CmdError where
  | missingArgs
  | conflictingArgs
  | userNotFound (key : String)
  | invalidRole (name : String)
  | alreadyMember (username rolename : String)
  | notMember (username rolename : String)
  | createFailed
  | deleteFailed
  | resetFailed
  | validationFailed (report : List (Nat × List (String × String)))
  | unknownRole (name : String)
  | identityConflict (email : String)
deriving DecidableEq, Repr

deriving instance DecidableEq for Except

/-- Embeds `_find_user`: requires exactly one of the username / email keys
(checked before the store lookup), then looks the user up and fails with
a not-found error when no user matches. -/
def _find_user (s : Store) (username email : Option String) : Except CmdError User :=
  match username, email with
  | none, none => .error .missingArgs
  | some _, some _ => .error .conflictingArgs
  | un, em =>
    match s.find_user un em with
    | none => .error (.userNotFound ((un.getD (em.getD ""))))
    | some u => .ok u

/-- Embeds `users_create`.  The interactive password acquisition
(`_create_password`, between the role check and the duplicate-username check)
is an external input channel and is not modelled.  `addOk` models whether the
store accepted `add_user` (which returns a falsy value on failure). -/
def users_create (s : Store) (username firstname lastname email role : String)
    (addOk : Bool) : Except CmdError Unit × Store :=
  match s.find_role role with
  | none => (.error (.invalidRole role), s)
  | some r =>
    match s.find_user_by_username username with
    | some _ => (.ok (), s)
    | none =>
      if addOk then (.ok (), s.add_user username firstname lastname email [r])
      else (.error .createFailed, s)

/-- Embeds `users_delete`: finds the user, clears its role memberships
(`user.roles.clear()`, persisted on the store-attached user), then requests
deletion.  `delOk` models whether `del_register_user` succeeded; on failure
the cleared memberships are not restored. -/
def users_delete (s : Store) (username email : Option String) (delOk : Bool) :
    Except CmdError Unit × Store :=
  match _find_user s username email with
  | .error e => (.error e, s)
  | .ok user =>
    let cleared : User := { user with roles := [] }
    let s1 := s.update_user cleared
    if delOk then (.ok (), s1.del_user cleared)
    else (.error .deleteFailed, s1)

/-- Embeds `users_manage_role` (`add-role` when `remove` is false,
`remove-role` when true): finds the user, resolves the role, then either
appends the role (failing when already a member) or removes it (failing when
not a member), persisting the user via `update_user` on success. -/
def users_manage_role (s : Store) (username email : Option String) (rolename : String)
    (remove : Bool) : Except CmdError Unit × Store :=
  match _find_user s username email with
  | .error e => (.error e, s)
  | .ok user =>
    match s.find_role rolename with
    | none => (.error (.invalidRole rolename), s)
    | some role =>
      if remove then
        if role ∈ user.roles then
          (.ok (), s.update_user { user with roles := user.roles.filter (fun r => r ≠ role) })
        else (.error (.notMember user.username rolename), s)
      else
        if role ∈ user.roles then (.error (.alreadyMember user.username rolename), s)
        else (.ok (), s.update_user { user with roles := user.roles ++ [role] })

/-- Embeds `user_reset_password`: finds the user, then asks the store to reset
the credential (`resetOk` models the store answer; credentials themselves are
owned by the external store and carry no modelled state). -/
def user_reset_password (s : Store) (username email : Option String) (resetOk : Bool) :
    Except CmdError Unit × Store :=
  match _find_user s username email with
  | .error e => (.error e, s)
  | .ok _ => if resetOk then (.ok (), s) else (.error .resetFailed, s)

/-- Embeds the role-resolution loop of `_import_users`: each role name of the
record is looked up in input order; the first name with no matching role
aborts with that name. -/
def resolveRoles (s : Store) : List String → Except CmdError (List String)
  | [] => .ok []
  | rn :: rest =>
    match s.find_role rn with
    | none => .error (.unknownRole rn)
    | some r =>
      match resolveRoles s rest with
      | .error e => .error e
      | .ok rs => .ok (r :: rs)

/-- Embeds the per-record loop of `_import_users`, carrying the
`users_created` and `users_updated` accumulators.  For each record in input
order: resolve its roles (aborting on an unknown role, keeping the store as
already mutated by earlier records), look the user up by email, then either
fail on a username mismatch, update the matched user (roles and names replaced
wholesale, unconditionally), or create a new user; the email of the record is
appended to the matching accumulator. -/
def importLoop : Store → List RawRecord → List String → List String →
    Except CmdError (List String × List String) × Store
  | s, [], created, updated => (.ok (created, updated), s)
  | s, r :: rest, created, updated =>
    match resolveRoles s (r.roles.getD []) with
    | .error e => (.error e, s)
    | .ok roles =>
      match s.find_user_by_email (r.email.getD "") with
      | some existing_user =>
        if existing_user.username = r.username.getD "" then
          importLoop
            (s.update_user { existing_user with
              roles := roles,
              first_name := r.firstname.getD "",
              last_name := r.lastname.getD "" })
            rest created (updated ++ [r.email.getD ""])
        else (.error (.identityConflict (r.email.getD "")), s)
      | none =>
        importLoop
          (s.add_user (r.username.getD "") (r.firstname.getD "") (r.lastname.getD "")
            (r.email.getD "") roles)
          rest (created ++ [r.email.getD ""]) updated

/-- Embeds `_import_users`: the whole batch is schema-validated first; any
violation aborts with the aggregated report and an untouched store, otherwise
the records are processed sequentially by `importLoop`. -/
def _import_users (s : Store) (recs : List RawRecord) :
    Except CmdError (List String × List String) × Store :=
  if validateBatch recs = [] then importLoop s recs [] []
  else (.error (.validationFailed (validateBatch recs)), s)

/-! ## General lemmas -/

theorem validateBatchFrom_mem (recs : List RawRecord) (j i : Nat) (r : RawRecord)
    (hget : recs.get? i = some r) (herr : validateRecord r ≠ []) :
    (j + i, validateRecord r) ∈ validateBatchFrom j recs := by
  induction recs generalizing j i with
  | nil => simp at hget
  | cons r0 rest ih =>
    cases i with
    | zero =>
      simp at hget
      subst hget
      simp only [validateBatchFrom]
      rw [if_neg herr]
      simp
    | succ i' =>
      simp only [List.get?] at hget
      have hmem := ih (j + 1) i' hget
      have harith : j + (i' + 1) = (j + 1) + i' := by omega
      rw [harith]
      simp only [validateBatchFrom]
      by_cases h0 : validateRecord r0 = []
      · rw [if_pos h0]; exact hmem
      · rw [if_neg h0]; exact List.mem_cons_of_mem _ hmem

/-! ## Claims -/

/-- C1: when any record of the batch violates the schema, `_import_users`
fails with the aggregated validation report and the store is returned
untouched (no role resolution, lookup, create or update happened), and the
report contains the violations of every invalid record, keyed by its index
and carrying its per-field messages. -/
theorem import_validation_gate (s : Store) (recs : List RawRecord)
    (h : validateBatch recs ≠ []) :
    _import_users s recs = (.error (.validationFailed (validateBatch recs)), s) ∧
    ∀ i r, recs.get? i = some r → validateRecord r ≠ [] →
      (i, validateRecord r) ∈ validateBatch recs := by
  constructor
  · simp only [_import_users]
    rw [if_neg h]
  · intro i r hget herr
    have := validateBatchFrom_mem recs 0 i r hget herr
    simpa [validateBatch] using this

/-- Witness for C1 on a two-record batch whose first record misses
`firstname` and whose second record has an empty roles list: both violations
are aggregated and the store is untouched. -/
theorem import_validation_gate_witness :
    validateBatch
        [⟨none, none, some "Lee", some "alee", some "a@x.com", some ["Viewer"]⟩,
         ⟨none, some "Bob", some "Ray", some "bray", some "b@x.com", some []⟩] ≠ [] ∧
      (_import_users ⟨[], ["Viewer"], 0⟩
          [⟨none, none, some "Lee", some "alee", some "a@x.com", some ["Viewer"]⟩,
           ⟨none, some "Bob", some "Ray", some "bray", some "b@x.com", some []⟩] =
        (.error (.validationFailed (validateBatch
          [⟨none, none, some "Lee", some "alee", some "a@x.com", some ["Viewer"]⟩,
           ⟨none, some "Bob", some "Ray", some "bray", some "b@x.com", some []⟩])),
         ⟨[], ["Viewer"], 0⟩) ∧
       ∀ i r,
         [⟨none, none, some "Lee", some "alee", some "a@x.com", some ["Viewer"]⟩,
          (⟨none, some "Bob", some "Ray", some "bray", some "b@x.com", some []⟩ : RawRecord)].get? i
           = some r → validateRecord r ≠ [] →
         (i, validateRecord r) ∈ validateBatch
           [⟨none, none, some "Lee", some "alee", some "a@x.com", some ["Viewer"]⟩,
            ⟨none, some "Bob", some "Ray", some "bray", some "b@x.com", some []⟩]) :=
  ⟨by decide, import_validation_gate _ _ (by decide)⟩

/-- C6 counterexample: a record whose `firstname` is the empty string passes
schema validation (no violations at all), because a required marshmallow
string field only requires the key to be present; the claim that validation
rejects empty `firstname`, `lastname` or `username` is therefore false. -/
theorem userschema_empty_name_accepted_counterexample :
    (⟨none, some "", some "Lee", some "alee", some "a@x.com", some ["Viewer"]⟩ :
        RawRecord).firstname = some "" ∧
      validateRecord ⟨none, some "", some "Lee", some "alee", some "a@x.com", some ["Viewer"]⟩
        = [] := by
  constructor <;> decide

/-- C6 (amended): schema validation accepts a record exactly when
`firstname`, `lastname` and `username` are present (any string value, the
empty string included), `email` is present and syntactically valid, and
`roles` is present and a non-empty list. -/
theorem userschema_acceptance (r : RawRecord) :
    validateRecord r = [] ↔
      r.firstname.isSome = true ∧ r.lastname.isSome = true ∧ r.username.isSome = true ∧
      (∃ e, r.email = some e ∧ validEmail e = true) ∧
      (∃ rs, r.roles = some rs ∧ rs ≠ []) := by
  obtain ⟨i, f, l, u, e, rs⟩ := r
  cases f <;> cases l <;> cases u <;> cases e <;> cases rs <;> simp [validateRecord]

theorem resolveRoles_ok_eq (s : Store) (names result : List String)
    (h : resolveRoles s names = .ok result) : result = names := by
  induction names generalizing result with
  | nil => simp [resolveRoles] at h; exact h
  | cons rn rest ih =>
    simp only [resolveRoles, Store.find_role] at h
    by_cases hmem : rn ∈ s.roles
    · rw [if_pos hmem] at h
      cases hrec : resolveRoles s rest with
      | error e => rw [hrec] at h; cases h
      | ok rs => rw [hrec] at h; cases h; rw [ih rs hrec]
    · rw [if_neg hmem] at h; cases h

/-- C2: a schema-valid record whose resolved email matches an existing user
with the same username is processed as an update: the stored user keeps its
id, username and email, its roles are replaced wholesale by the resolved
record roles (which are exactly the role names of the record) and its names
by the record names, the update is persisted via `update_user`, the record
email is appended to the `updated` accumulator, and the loop continues —
all of this unconditionally, with no comparison of old and new values, so
re-importing an unchanged snapshot still reports the record as updated. -/
theorem import_update_on_email_match (s : Store) (r : RawRecord) (rest : List RawRecord)
    (created updated : List String) (eu : User) (roles : List String)
    (hv : validateRecord r = [])
    (hres : resolveRoles s (r.roles.getD []) = .ok roles)
    (hfind : s.find_user_by_email (r.email.getD "") = some eu)
    (hname : eu.username = r.username.getD "") :
    importLoop s (r :: rest) created updated =
      importLoop
        (s.update_user { eu with
          roles := roles,
          first_name := r.firstname.getD "",
          last_name := r.lastname.getD "" })
        rest created (updated ++ [r.email.getD ""]) ∧
    ({ eu with
        roles := roles,
        first_name := r.firstname.getD "",
        last_name := r.lastname.getD "" } : User) =
      ⟨eu.id, eu.username, r.firstname.getD "", r.lastname.getD "", eu.email, roles⟩ ∧
    roles = r.roles.getD [] := by
  refine ⟨?_, rfl, resolveRoles_ok_eq s _ _ hres⟩
  simp [importLoop, hres, hfind, hname]

/-- Witness for C2: re-importing the exact snapshot of an existing user
(same names, same roles) still goes through the update path and reports the
email as updated. -/
theorem import_update_on_email_match_witness :
    validateRecord ⟨some 5, some "Ann", some "Lee", some "alee", some "a@x.com", some ["Viewer"]⟩
        = [] ∧
      resolveRoles ⟨[⟨5, "alee", "Ann", "Lee", "a@x.com", ["Viewer"]⟩], ["Viewer"], 6⟩ ["Viewer"]
        = .ok ["Viewer"] ∧
      Store.find_user_by_email ⟨[⟨5, "alee", "Ann", "Lee", "a@x.com", ["Viewer"]⟩], ["Viewer"], 6⟩
        "a@x.com" = some ⟨5, "alee", "Ann", "Lee", "a@x.com", ["Viewer"]⟩ ∧
      importLoop ⟨[⟨5, "alee", "Ann", "Lee", "a@x.com", ["Viewer"]⟩], ["Viewer"], 6⟩
        [⟨some 5, some "Ann", some "Lee", some "alee", some "a@x.com", some ["Viewer"]⟩] [] [] =
        importLoop
          (Store.update_user ⟨[⟨5, "alee", "Ann", "Lee", "a@x.com", ["Viewer"]⟩], ["Viewer"], 6⟩
            ⟨5, "alee", "Ann", "Lee", "a@x.com", ["Viewer"]⟩)
          [] [] ["a@x.com"] :=
  ⟨by decide, by decide, by decide,
    (import_update_on_email_match
      ⟨[⟨5, "alee", "Ann", "Lee", "a@x.com", ["Viewer"]⟩], ["Viewer"], 6⟩
      ⟨some 5, some "Ann", some "Lee", some "alee", some "a@x.com", some ["Viewer"]⟩
      [] [] [] ⟨5, "alee", "Ann", "Lee", "a@x.com", ["Viewer"]⟩ ["Viewer"]
      (by decide) (by decide) (by decide) (by decide)).1⟩

/-- C3: a schema-valid record whose email matches no stored user and whose
roles all resolve is processed as a create: exactly one new user is appended
to the store, carrying the next store id and the username, first name, last
name, email and role names of the record, the record email is appended to
the `created` accumulator, and the loop continues. -/
theorem import_create_on_absent_email (s : Store) (r : RawRecord) (rest : List RawRecord)
    (created updated : List String) (roles : List String)
    (hv : validateRecord r = [])
    (hres : resolveRoles s (r.roles.getD []) = .ok roles)
    (hfind : s.find_user_by_email (r.email.getD "") = none) :
    importLoop s (r :: rest) created updated =
      importLoop
        (s.add_user (r.username.getD "") (r.firstname.getD "") (r.lastname.getD "")
          (r.email.getD "") roles)
        rest (created ++ [r.email.getD ""]) updated ∧
    roles = r.roles.getD [] ∧
    (s.add_user (r.username.getD "") (r.firstname.getD "") (r.lastname.getD "")
        (r.email.getD "") roles).users =
      s.users ++ [⟨s.nextId, r.username.getD "", r.firstname.getD "", r.lastname.getD "",
        r.email.getD "", roles⟩] := by
  refine ⟨?_, resolveRoles_ok_eq s _ _ hres, rfl⟩
  simp only [importLoop, hres, hfind]

/-- Witness for C3: importing a record with a fresh email into a store with
one unrelated user creates exactly one new user from the record fields. -/
theorem import_create_on_absent_email_witness :
    validateRecord ⟨none, some "Bob", some "Ray", some "bray", some "b@x.com", some ["Viewer"]⟩
        = [] ∧
      resolveRoles ⟨[⟨5, "alee", "Ann", "Lee", "a@x.com", ["Viewer"]⟩], ["Viewer"], 6⟩ ["Viewer"]
        = .ok ["Viewer"] ∧
      Store.find_user_by_email ⟨[⟨5, "alee", "Ann", "Lee", "a@x.com", ["Viewer"]⟩], ["Viewer"], 6⟩
        "b@x.com" = none ∧
      importLoop ⟨[⟨5, "alee", "Ann", "Lee", "a@x.com", ["Viewer"]⟩], ["Viewer"], 6⟩
        [⟨none, some "Bob", some "Ray", some "bray", some "b@x.com", some ["Viewer"]⟩] [] [] =
        importLoop
          (Store.add_user ⟨[⟨5, "alee", "Ann", "Lee", "a@x.com", ["Viewer"]⟩], ["Viewer"], 6⟩
            "bray" "Bob" "Ray" "b@x.com" ["Viewer"])
          [] ["b@x.com"] [] :=
  ⟨by decide, by decide, by decide,
    (import_create_on_absent_email _ _ _ _ _ _ (by decide) (by decide) (by decide)).1⟩

/-- C4: a schema-valid record (with resolvable roles) whose email matches an
existing user with a different username makes the import fail with the
identity conflict for that email, and the store — in particular the matched
user — is exactly as it was when the record was reached: the error path
performs no mutation. -/
theorem import_conflict_on_username_mismatch (s : Store) (r : RawRecord)
    (rest : List RawRecord) (created updated : List String) (eu : User) (roles : List String)
    (hv : validateRecord r = [])
    (hres : resolveRoles s (r.roles.getD []) = .ok roles)
    (hfind : s.find_user_by_email (r.email.getD "") = some eu)
    (hname : eu.username ≠ r.username.getD "") :
    importLoop s (r :: rest) created updated =
      (.error (.identityConflict (r.email.getD "")), s) := by
  simp only [importLoop, hres, hfind]
  rw [if_neg hname]

/-- Witness for C4: a record renaming `alee` to `aleesmith` at the same email
fails with the identity conflict and leaves the store untouched. -/
theorem import_conflict_on_username_mismatch_witness :
    Store.find_user_by_email ⟨[⟨5, "alee", "Ann", "Lee", "a@x.com", ["Viewer"]⟩], ["Viewer"], 6⟩
        "a@x.com" = some ⟨5, "alee", "Ann", "Lee", "a@x.com", ["Viewer"]⟩ ∧
      importLoop ⟨[⟨5, "alee", "Ann", "Lee", "a@x.com", ["Viewer"]⟩], ["Viewer"], 6⟩
        [⟨none, some "Ann", some "Lee", some "aleesmith", some "a@x.com", some ["Viewer"]⟩] [] [] =
        (.error (.identityConflict "a@x.com"),
          ⟨[⟨5, "alee", "Ann", "Lee", "a@x.com", ["Viewer"]⟩], ["Viewer"], 6⟩) :=
  ⟨by decide,
    import_conflict_on_username_mismatch
      ⟨[⟨5, "alee", "Ann", "Lee", "a@x.com", ["Viewer"]⟩], ["Viewer"], 6⟩
      ⟨none, some "Ann", some "Lee", some "aleesmith", some "a@x.com", some ["Viewer"]⟩
      [] [] [] ⟨5, "alee", "Ann", "Lee", "a@x.com", ["Viewer"]⟩ ["Viewer"]
      (by decide) (by decide) (by decide) (by decide)⟩

theorem importLoop_append (l1 : List RawRecord) (l2 : List RawRecord)
    (s s1 : Store) (c u c1 u1 : List String)
    (h : importLoop s l1 c u = (.ok (c1, u1), s1)) :
    importLoop s (l1 ++ l2) c u = importLoop s1 l2 c1 u1 := by
  induction l1 generalizing s c u with
  | nil =>
    simp only [importLoop] at h
    cases h
    simp [importLoop]
  | cons r rest ih =>
    cases hres : resolveRoles s (r.roles.getD []) with
    | error e => simp only [importLoop, hres] at h; simp at h
    | ok roles =>
      cases hfind : s.find_user_by_email (r.email.getD "") with
      | some eu =>
        by_cases hname : eu.username = r.username.getD ""
        · simp only [List.cons_append, importLoop, hres, hfind, if_pos hname] at h ⊢
          exact ih _ _ _ h
        · simp only [importLoop, hres, hfind, if_neg hname] at h
          simp at h
      | none =>
        simp only [List.cons_append, importLoop, hres, hfind] at h ⊢
        exact ih _ _ _ h

theorem importLoop_roles_invariant (l : List RawRecord) (s : Store) (c u : List String) :
    ((importLoop s l c u).2).roles = s.roles := by
  induction l generalizing s c u with
  | nil => simp [importLoop]
  | cons r rest ih =>
    cases hres : resolveRoles s (r.roles.getD []) with
    | error e => simp [importLoop, hres]
    | ok roles =>
      cases hfind : s.find_user_by_email (r.email.getD "") with
      | some eu =>
        by_cases hname : eu.username = r.username.getD ""
        · simp only [importLoop, hres, hfind, if_pos hname]
          rw [ih]
          rfl
        · simp [importLoop, hres, hfind, if_neg hname]
      | none =>
        simp only [importLoop, hres, hfind]
        rw [ih]
        rfl

/-- C5: in a schema-valid batch, when the records of the prefix `good` all
process successfully (reaching store `s1`) and the next record `bad` has a
role name that does not resolve, `_import_users` fails with that unknown
role name and the final store is exactly `s1`: the creates and updates of
the prefix stay applied (no rollback) while neither `bad` nor any later
record mutates the store.  The store role set is invariant under the loop,
so resolution of the roles of `bad` against `s1` is resolution against the
original store roles. -/
theorem import_unknown_role_aborts_rest (s s1 : Store) (good rest : List RawRecord)
    (bad : RawRecord) (c u : List String) (rn : String)
    (hvalid : validateBatch (good ++ bad :: rest) = [])
    (h1 : importLoop s good [] [] = (.ok (c, u), s1))
    (hbad : resolveRoles s1 (bad.roles.getD []) = .error (.unknownRole rn)) :
    _import_users s (good ++ bad :: rest) = (.error (.unknownRole rn), s1) ∧
    s1.roles = s.roles := by
  constructor
  · simp only [_import_users]
    rw [if_pos hvalid]
    rw [importLoop_append good (bad :: rest) s s1 [] [] c u h1]
    simp only [importLoop, hbad]
  · have := importLoop_roles_invariant good s [] []
    rw [h1] at this
    exact this

/-- Witness for C5: a two-record batch over a store that only has the role
Viewer; the first record is created, the second carries the unknown role
Admin, so the import fails with that role name while the first creation
stays applied. -/
theorem import_unknown_role_aborts_rest_witness :
    validateBatch
        [⟨none, some "Ann", some "Lee", some "alee", some "a@x.com", some ["Viewer"]⟩,
         ⟨none, some "Bob", some "Ray", some "bray", some "b@x.com", some ["Admin"]⟩] = [] ∧
      importLoop ⟨[], ["Viewer"], 0⟩
          [⟨none, some "Ann", some "Lee", some "alee", some "a@x.com", some ["Viewer"]⟩] [] [] =
        (.ok (["a@x.com"], []), ⟨[⟨0, "alee", "Ann", "Lee", "a@x.com", ["Viewer"]⟩], ["Viewer"], 1⟩) ∧
      resolveRoles ⟨[⟨0, "alee", "Ann", "Lee", "a@x.com", ["Viewer"]⟩], ["Viewer"], 1⟩ ["Admin"]
        = .error (.unknownRole "Admin") ∧
      _import_users ⟨[], ["Viewer"], 0⟩
          [⟨none, some "Ann", some "Lee", some "alee", some "a@x.com", some ["Viewer"]⟩,
           ⟨none, some "Bob", some "Ray", some "bray", some "b@x.com", some ["Admin"]⟩] =
        (.error (.unknownRole "Admin"),
          ⟨[⟨0, "alee", "Ann", "Lee", "a@x.com", ["Viewer"]⟩], ["Viewer"], 1⟩) :=
  ⟨by decide, by decide, by decide,
    (import_unknown_role_aborts_rest ⟨[], ["Viewer"], 0⟩
      ⟨[⟨0, "alee", "Ann", "Lee", "a@x.com", ["Viewer"]⟩], ["Viewer"], 1⟩
      [⟨none, some "Ann", some "Lee", some "alee", some "a@x.com", some ["Viewer"]⟩]
      []
      ⟨none, some "Bob", some "Ray", some "bray", some "b@x.com", some ["Admin"]⟩
      ["a@x.com"] [] "Admin"
      (by decide) (by decide) (by decide)).1⟩

/-- C7: with the user found and the role name resolved, `add-role` fails with
the already-member error when the role is among the user roles and otherwise
appends exactly that one role and persists the user via `update_user`;
`remove-role` fails with the not-member error when the role is absent and
otherwise removes it and persists; on both failure branches the store — so in
particular the role list of the user — is returned unchanged. -/
theorem manage_role_add_remove (s : Store) (username email : Option String)
    (rolename role : String) (user : User)
    (hfind : _find_user s username email = .ok user)
    (hrole : s.find_role rolename = some role) :
    (role ∈ user.roles →
      users_manage_role s username email rolename false =
          (.error (.alreadyMember user.username rolename), s) ∧
        users_manage_role s username email rolename true =
          (.ok (), s.update_user { user with roles := user.roles.filter (fun r => r ≠ role) })) ∧
    (role ∉ user.roles →
      users_manage_role s username email rolename true =
          (.error (.notMember user.username rolename), s) ∧
        users_manage_role s username email rolename false =
          (.ok (), s.update_user { user with roles := user.roles ++ [role] })) := by
  constructor
  · intro hmem
    constructor <;> simp [users_manage_role, hfind, hrole, hmem]
  · intro hmem
    constructor <;> simp [users_manage_role, hfind, hrole, hmem]

/-- Witness for C7: on a store with user alee holding role Viewer, adding
Viewer again fails as already-member, removing the unheld role Admin fails
as not-member, and adding Admin persists the appended role list. -/
theorem manage_role_add_remove_witness :
    _find_user ⟨[⟨5, "alee", "Ann", "Lee", "a@x.com", ["Viewer"]⟩], ["Viewer", "Admin"], 6⟩
        (some "alee") none = .ok ⟨5, "alee", "Ann", "Lee", "a@x.com", ["Viewer"]⟩ ∧
      users_manage_role ⟨[⟨5, "alee", "Ann", "Lee", "a@x.com", ["Viewer"]⟩], ["Viewer", "Admin"], 6⟩
        (some "alee") none "Viewer" false =
        (.error (.alreadyMember "alee" "Viewer"),
          ⟨[⟨5, "alee", "Ann", "Lee", "a@x.com", ["Viewer"]⟩], ["Viewer", "Admin"], 6⟩) ∧
      users_manage_role ⟨[⟨5, "alee", "Ann", "Lee", "a@x.com", ["Viewer"]⟩], ["Viewer", "Admin"], 6⟩
        (some "alee") none "Admin" true =
        (.error (.notMember "alee" "Admin"),
          ⟨[⟨5, "alee", "Ann", "Lee", "a@x.com", ["Viewer"]⟩], ["Viewer", "Admin"], 6⟩) :=
  ⟨by decide,
    ((manage_role_add_remove
        ⟨[⟨5, "alee", "Ann", "Lee", "a@x.com", ["Viewer"]⟩], ["Viewer", "Admin"], 6⟩
        (some "alee") none "Viewer" "Viewer" ⟨5, "alee", "Ann", "Lee", "a@x.com", ["Viewer"]⟩
        (by decide) (by decide)).1 (by decide)).1,
    ((manage_role_add_remove
        ⟨[⟨5, "alee", "Ann", "Lee", "a@x.com", ["Viewer"]⟩], ["Viewer", "Admin"], 6⟩
        (some "alee") none "Admin" "Admin" ⟨5, "alee", "Ann", "Lee", "a@x.com", ["Viewer"]⟩
        (by decide) (by decide)).2 (by decide)).1⟩

/-- C8: `users_delete` first persists the user with all role memberships
cleared, then requests deletion from the store; when the deletion request
succeeds the cleared user is removed, and when it fails the command reports
the failure while the clearing stays applied: the store keeps exactly the
same user ids, and every stored user carrying the id of the target has an
empty role list. -/
theorem users_delete_two_phase (s : Store) (username email : Option String) (user : User)
    (hfind : _find_user s username email = .ok user) :
    users_delete s username email true =
        (.ok (), (s.update_user { user with roles := [] }).del_user { user with roles := [] }) ∧
    users_delete s username email false =
        (.error .deleteFailed, s.update_user { user with roles := [] }) ∧
    (s.update_user { user with roles := [] }).users.map User.id = s.users.map User.id ∧
    ∀ x ∈ (s.update_user { user with roles := [] }).users, x.id = user.id → x.roles = [] := by
  refine ⟨?_, ?_, ?_, ?_⟩
  · simp [users_delete, hfind]
  · simp [users_delete, hfind]
  · simp only [Store.update_user, List.map_map]
    apply List.map_congr_left
    intro a _
    by_cases h : a.id = user.id
    · simp [h]
    · simp [h]
  · intro x hx hid
    simp only [Store.update_user, List.mem_map] at hx
    obtain ⟨a, _, hax⟩ := hx
    by_cases h : a.id = user.id
    · rw [if_pos h] at hax
      rw [← hax]
    · rw [if_neg h] at hax
      rw [← hax] at hid
      exact absurd hid h

/-- Witness for C8: deleting alee with a failing store deletion leaves the
user present with an empty role list; with a succeeding deletion the user is
removed. -/
theorem users_delete_two_phase_witness :
    users_delete ⟨[⟨5, "alee", "Ann", "Lee", "a@x.com", ["Viewer"]⟩], ["Viewer"], 6⟩
        (some "alee") none true =
        (.ok (), Store.del_user
          (Store.update_user ⟨[⟨5, "alee", "Ann", "Lee", "a@x.com", ["Viewer"]⟩], ["Viewer"], 6⟩
            ⟨5, "alee", "Ann", "Lee", "a@x.com", []⟩)
          ⟨5, "alee", "Ann", "Lee", "a@x.com", []⟩) ∧
      users_delete ⟨[⟨5, "alee", "Ann", "Lee", "a@x.com", ["Viewer"]⟩], ["Viewer"], 6⟩
        (some "alee") none false =
        (.error .deleteFailed,
          Store.update_user ⟨[⟨5, "alee", "Ann", "Lee", "a@x.com", ["Viewer"]⟩], ["Viewer"], 6⟩
            ⟨5, "alee", "Ann", "Lee", "a@x.com", []⟩) :=
  ⟨(users_delete_two_phase ⟨[⟨5, "alee", "Ann", "Lee", "a@x.com", ["Viewer"]⟩], ["Viewer"], 6⟩
      (some "alee") none ⟨5, "alee", "Ann", "Lee", "a@x.com", ["Viewer"]⟩ (by decide)).1,
    (users_delete_two_phase ⟨[⟨5, "alee", "Ann", "Lee", "a@x.com", ["Viewer"]⟩], ["Viewer"], 6⟩
      (some "alee") none ⟨5, "alee", "Ann", "Lee", "a@x.com", ["Viewer"]⟩ (by decide)).2.1⟩

/-- C9: when the requested username already names a stored user,
`users_create` returns normally with the store unchanged (no user added, no
other mutation) provided the role resolves; the role check comes first, so
with an invalid role the call fails with the invalid-role error even though
the username already exists. -/
theorem users_create_duplicate_username (s : Store)
    (username firstname lastname email role : String) (addOk : Bool) (u : User)
    (hdup : s.find_user_by_username username = some u) :
    (∀ r, s.find_role role = some r →
      users_create s username firstname lastname email role addOk = (.ok (), s)) ∧
    (s.find_role role = none →
      users_create s username firstname lastname email role addOk =
        (.error (.invalidRole role), s)) := by
  constructor
  · intro r hr
    simp [users_create, hr, hdup]
  · intro hr
    simp [users_create, hr]

/-- Witness for C9: creating alee again succeeds as a no-op when the role is
valid, and fails with the invalid-role error when the role is unknown. -/
theorem users_create_duplicate_username_witness :
    users_create ⟨[⟨5, "alee", "Ann", "Lee", "a@x.com", ["Viewer"]⟩], ["Viewer"], 6⟩
        "alee" "Ann" "Lee" "a@x.com" "Viewer" true =
        (.ok (), ⟨[⟨5, "alee", "Ann", "Lee", "a@x.com", ["Viewer"]⟩], ["Viewer"], 6⟩) ∧
      users_create ⟨[⟨5, "alee", "Ann", "Lee", "a@x.com", ["Viewer"]⟩], ["Viewer"], 6⟩
        "alee" "Ann" "Lee" "a@x.com" "Ghost" true =
        (.error (.invalidRole "Ghost"),
          ⟨[⟨5, "alee", "Ann", "Lee", "a@x.com", ["Viewer"]⟩], ["Viewer"], 6⟩) :=
  ⟨(users_create_duplicate_username ⟨[⟨5, "alee", "Ann", "Lee", "a@x.com", ["Viewer"]⟩],
      ["Viewer"], 6⟩ "alee" "Ann" "Lee" "a@x.com" "Viewer" true
      ⟨5, "alee", "Ann", "Lee", "a@x.com", ["Viewer"]⟩ (by decide)).1 "Viewer" (by decide),
    (users_create_duplicate_username ⟨[⟨5, "alee", "Ann", "Lee", "a@x.com", ["Viewer"]⟩],
      ["Viewer"], 6⟩ "alee" "Ann" "Lee" "a@x.com" "Ghost" true
      ⟨5, "alee", "Ann", "Lee", "a@x.com", ["Viewer"]⟩ (by decide)).2 (by decide)⟩

/-- C10: the single-user lookup shared by delete, reset-password, add-role
and remove-role requires exactly one of the username and email keys: with
neither or both supplied every one of these commands fails (missing or
conflicting arguments) with the store unchanged, and with exactly one key
supplied but no matching user they fail with the not-found error for that
key, again with the store unchanged. -/
theorem find_user_key_requirements (s : Store) (dOk rOk rm : Bool) (rn : String) :
    (users_delete s none none dOk = (.error .missingArgs, s) ∧
      user_reset_password s none none rOk = (.error .missingArgs, s) ∧
      users_manage_role s none none rn rm = (.error .missingArgs, s)) ∧
    (∀ a b, users_delete s (some a) (some b) dOk = (.error .conflictingArgs, s) ∧
      user_reset_password s (some a) (some b) rOk = (.error .conflictingArgs, s) ∧
      users_manage_role s (some a) (some b) rn rm = (.error .conflictingArgs, s)) ∧
    (∀ a, s.find_user_by_username a = none →
      users_delete s (some a) none dOk = (.error (.userNotFound a), s) ∧
        user_reset_password s (some a) none rOk = (.error (.userNotFound a), s) ∧
        users_manage_role s (some a) none rn rm = (.error (.userNotFound a), s)) ∧
    (∀ b, s.find_user_by_email b = none →
      users_delete s none (some b) dOk = (.error (.userNotFound b), s) ∧
        user_reset_password s none (some b) rOk = (.error (.userNotFound b), s) ∧
        users_manage_role s none (some b) rn rm = (.error (.userNotFound b), s)) := by
  refine ⟨⟨?_, ?_, ?_⟩, fun a b => ⟨?_, ?_, ?_⟩, fun a ha => ⟨?_, ?_, ?_⟩,
    fun b hb => ⟨?_, ?_, ?_⟩⟩ <;>
    simp_all [users_delete, user_reset_password, users_manage_role, _find_user, Store.find_user]

/-- Witness for C10: on a store with only the user alee, supplying no key,
both keys, or an unmatched single key makes delete (and the other lookup
commands) fail with the corresponding error and an unchanged store. -/
theorem find_user_key_requirements_witness :
    users_delete ⟨[⟨5, "alee", "Ann", "Lee", "a@x.com", ["Viewer"]⟩], ["Viewer"], 6⟩
        none none true =
        (.error .missingArgs, ⟨[⟨5, "alee", "Ann", "Lee", "a@x.com", ["Viewer"]⟩], ["Viewer"], 6⟩) ∧
      users_manage_role ⟨[⟨5, "alee", "Ann", "Lee", "a@x.com", ["Viewer"]⟩], ["Viewer"], 6⟩
        (some "alee") (some "a@x.com") "Viewer" false =
        (.error .conflictingArgs,
          ⟨[⟨5, "alee", "Ann", "Lee", "a@x.com", ["Viewer"]⟩], ["Viewer"], 6⟩) ∧
      user_reset_password ⟨[⟨5, "alee", "Ann", "Lee", "a@x.com", ["Viewer"]⟩], ["Viewer"], 6⟩
        (some "ghost") none true =
        (.error (.userNotFound "ghost"),
          ⟨[⟨5, "alee", "Ann", "Lee", "a@x.com", ["Viewer"]⟩], ["Viewer"], 6⟩) :=
  ⟨(find_user_key_requirements ⟨[⟨5, "alee", "Ann", "Lee", "a@x.com", ["Viewer"]⟩], ["Viewer"], 6⟩
      true true false "Viewer").1.1,
    ((find_user_key_requirements ⟨[⟨5, "alee", "Ann", "Lee", "a@x.com", ["Viewer"]⟩], ["Viewer"], 6⟩
      true true false "Viewer").2.1 "alee" "a@x.com").2.2,
    ((find_user_key_requirements ⟨[⟨5, "alee", "Ann", "Lee", "a@x.com", ["Viewer"]⟩], ["Viewer"], 6⟩
      true true false "Viewer").2.2.1 "ghost" (by decide)).2.1⟩

end UserCommand
